import Mathlib

/-!
# Verification of the PLN_II retrieval-augmented chat scripts

Shallow embedding of the three Python sources of the repository:

* `src/TP-2/vector_db.py` — ingest/search script (its `search_similar` and
  its interactive `__main__` loop);
* `src/TP-2/chat_groq.py` — `ChatSession` (history, retrieval-augmented
  chat with a streamed completion) and its `__main__` loop;
* `src/TP-3/cv_agent.py` — `search_similar`, the `CVSelectorTool`,
  `CVRetrieverTool` and `LLMResponderTool` tools, the `CVChatAgent`, and
  its `main` loop.

Remote services (Pinecone index listing/opening/search, Groq chat
completions) are modelled as oracles: each remote call site reads a
caller-supplied `Except`-valued outcome, `Except.error` standing for the
call raising an exception.  A streamed completion is a finite list of
chunks, each carrying an optional delta content (`none` models a chunk
whose content is `None` or malformed), plus an optional error raised by
the iterator after the listed chunks are yielded.
-/

/-! ## Python string primitives used by the scripts -/

/-- Whitespace characters removed by Python `str.strip()` (ASCII range:
space, tab, newline, carriage return, vertical tab, form feed). -/
def pyIsSpace (c : Char) : Bool :=
  c == ' ' || c == '\t' || c == '\n' || c == '\r' || c == Char.ofNat 11 || c == Char.ofNat 12

/-- Python `s.strip()`: drop leading and trailing whitespace. -/
def pyStrip (s : String) : String :=
  String.mk (((s.data.dropWhile pyIsSpace).reverse.dropWhile pyIsSpace).reverse)

/-- Python `s.lower()` (ASCII case folding, which is all the scripts use). -/
def pyLower (s : String) : String :=
  String.mk (s.data.map Char.toLower)

/-- Python slicing `s[:n]`: the first `n` characters of `s`. -/
def pyTake (s : String) (n : Nat) : String :=
  String.mk (s.data.take n)

/-- Python `sep.join(xs)`. -/
def pyJoin (sep : String) : List String → String
  | [] => ""
  | [x] => x
  | x :: y :: xs => x ++ sep ++ pyJoin sep (y :: xs)

/-- Python format spec `{v:<n}`: left-justify in a field of width `n`. -/
def padTo (s : String) (n : Nat) : String :=
  s ++ String.mk (List.replicate (n - s.length) ' ')

/-! ## Data model -/

/-- One entry of a conversation history: `{"role": ..., "content": ...}`. -/
structure Message where
  role : String
  content : String
deriving DecidableEq

/-- The `"fields"` object of a raw Pinecone hit; each key may be absent. -/
structure RawFields where
  category : Option String
  chunk_text : Option String
deriving DecidableEq

/-- A raw hit of the Pinecone search payload
`{"result": {"hits": [{"_id": ..., "_score": ..., "fields": {...}}]}}`;
every key may be absent. -/
structure RawHit where
  idField : Option String
  scoreField : Option ℚ
  fields : Option RawFields
deriving DecidableEq

/-- The normalized record built by `search_similar` in `cv_agent.py`:
`{id, score, category, text}`. -/
structure SearchRecord where
  id : String
  score : ℚ
  category : String
  text : String
deriving DecidableEq

/-- One chunk of a streamed completion; `deltaContent = none` models
`chunk.choices[0].delta.content` being `None` or the chunk being
malformed. -/
structure StreamChunk where
  deltaContent : Option String
deriving DecidableEq

/-- A streamed completion: the chunks yielded in arrival order, and an
optional exception raised by the stream iterator after those chunks. -/
structure CompletionStream where
  chunks : List StreamChunk
  failAfter : Option String
deriving DecidableEq

/-- Python `round(x, 2)` on the score (two decimal places). -/
def round2 (q : ℚ) : ℚ :=
  round (q * 100) / 100

/-- Stand-in for Python numeric-to-string formatting of the rounded
score inside the f-string of `vector_db.search_similar`. -/
def scoreRepr (q : ℚ) : String :=
  toString q

/-! ## Retriever normalization (`search_similar` in `cv_agent.py`) -/

/-- One loop iteration of `cv_agent.search_similar`: every access uses
`dict.get` with a default, so missing keys default to `""` / `0.0`. -/
def normalizeHit (h : RawHit) : SearchRecord :=
  { id := h.idField.getD ""
    score := round2 (h.scoreField.getD 0)
    category := ((h.fields.getD { category := none, chunk_text := none }).category).getD ""
    text := ((h.fields.getD { category := none, chunk_text := none }).chunk_text).getD "" }

/-- `cv_agent.search_similar`: the remote `index.search` call is the
oracle argument; on an exception it logs and returns `[]`, otherwise each
hit is normalized with defaults (the normalization itself is total, so
the inner `try` around the parsing loop never fires in this model). -/
def search_similar_tp3 (remote : Except String (List RawHit)) : List SearchRecord :=
  match remote with
  | .error _ => []
  | .ok hits => hits.map normalizeHit

/-! ## `vector_db.search_similar` (TP-2): direct key access, no defaults -/

/-- One loop iteration of `vector_db.search_similar`: the f-string
accesses `hit["_id"]`, `hit["_score"]`, `hit["fields"]["category"]` and
`hit["fields"]["chunk_text"]` directly, so an absent key raises
`KeyError`; the text is truncated to 80 characters for the formatted
line, which is both printed (when `debug`) and appended to the returned
data. -/
def formatHit_tp2 (h : RawHit) : Except String String :=
  match h.idField with
  | none => .error "KeyError: _id"
  | some i =>
    match h.scoreField with
    | none => .error "KeyError: _score"
    | some sc =>
      match h.fields with
      | none => .error "KeyError: fields"
      | some f =>
        match f.category with
        | none => .error "KeyError: category"
        | some cat =>
          match f.chunk_text with
          | none => .error "KeyError: chunk_text"
          | some txt =>
            .ok ("id: " ++ padTo i 10 ++ " | score: " ++ padTo (scoreRepr (round2 sc)) 5 ++
              " | category: " ++ padTo cat 10 ++ " | text: " ++ pyTake txt 80 ++ "...")

/-- `vector_db.search_similar`: the oracle covers the
`describe_index_stats` and `search` remote calls (either raising is an
`Except.error`); the parsing loop has no `try`, so the first missing key
propagates a `KeyError` out of the function. -/
def search_similar_tp2 (remote : Except String (List RawHit)) : Except String (List String) :=
  match remote with
  | .error e => .error e
  | .ok hits => hits.mapM formatHit_tp2

/-! ## Responder (`LLMResponderTool.run` in `cv_agent.py`) -/

/-- The fixed apology returned by `LLMResponderTool.run` when the
completion call raises. -/
def apologyMsg : String :=
  "Ocurrió un error generando la respuesta."

/-- The accumulation `response += delta` over the yielded chunks, in
arrival order, each delta being `... or ""`. -/
def concatDeltas (chunks : List StreamChunk) : String :=
  chunks.foldl (fun acc c => acc ++ c.deltaContent.getD "") ""

/-- `LLMResponderTool.run`.  The `try` covers only the
`chat.completions.create` call: if it raises, the error is logged and the
fixed apology string is returned.  The streaming `for` loop is outside the
`try`, so an exception raised by the stream iterator propagates to the
caller (the inner per-chunk `try/except: pass` is modelled by
`deltaContent.getD ""`).  Returns the result (`Except.error` = the call
raised to the caller) paired with the list of logged errors. -/
def llmResponderRun (create : Except String CompletionStream) :
    Except String String × List String :=
  match create with
  | .error e => (.ok apologyMsg, [e])
  | .ok st =>
    match st.failAfter with
    | some e => (.error e, [])
    | none => (.ok (concatDeltas st.chunks), [])

/-! ## `ChatSession` (`chat_groq.py`) -/

/-- Oracle for one `ChatSession.chat` turn: the outcome of the remote
search (covering `describe_index_stats` and `index.search` inside
`vector_db.search_similar`) and the outcome of the completion call. -/
structure ChatOracle where
  searchRemote : Except String (List RawHit)
  create : Except String CompletionStream

/-- `ChatSession.chat`.  No `try/except` anywhere in the method: a failure
of the search, of the per-hit parsing, of the completion call, or of the
stream iteration propagates to the caller (`Except.error`).  The second
component is `self.messages` after the turn: the full user message (with
injected context) is appended before the completion call, the assistant
message only after the stream is fully drained. -/
def chatSessionChat (msgs : List Message) (userMessage : String) (o : ChatOracle) :
    Except String String × List Message :=
  match search_similar_tp2 o.searchRemote with
  | .error e => (.error e, msgs)
  | .ok contextDocs =>
    let contextStr := pyJoin " " contextDocs
    let fullUserMessage := userMessage ++ "\n\nContexto: " ++ contextStr
    let msgs1 := msgs ++ [{ role := "user", content := fullUserMessage }]
    match o.create with
    | .error e => (.error e, msgs1)
    | .ok st =>
      match st.failAfter with
      | some e => (.error e, msgs1)
      | none =>
        let response := concatDeltas st.chunks
        (.ok response, msgs1 ++ [{ role := "assistant", content := response }])

/-- The history reached by running a sequence of `ChatSession.chat` turns
from the initial empty `self.messages`. -/
def sessionHistory (turns : List (String × ChatOracle)) : List Message :=
  turns.foldl (fun ms t => (chatSessionChat ms t.1 t.2).2) []

/-! ## Index selector (`CVSelectorTool.run` in `cv_agent.py`) -/

/-- Oracle for one `CVSelectorTool.run` invocation: the outcome of
`pinecone.list_indexes()`, of each `pinecone.Index(idx)` construction, of
each per-index search, and the content of the first choice of the
selection completion (`Except.error` = the completion call raised). -/
structure SelectorOracle where
  listIndexes : Except String (List String)
  openIndex : String → Except String Unit
  searchResult : String → String → Except String (List RawHit)
  llmAnswer : Except String String

/-- The per-index retrieval loop of `CVSelectorTool.run` building
`cv_chunks`: an index that fails to open is skipped (`continue`); for the
rest, the texts of the hits are kept (only the truthy ones), and an index
with no usable hits is recorded with the placeholder entry. -/
def selectorGather (o : SelectorOracle) (query : String) : List String → List (String × List String)
  | [] => []
  | idx :: rest =>
    match o.openIndex idx with
    | .error _ => selectorGather o query rest
    | .ok _ =>
      let results := search_similar_tp3 (o.searchResult idx query)
      let chunkTexts := (results.map SearchRecord.text).filter (fun t => t ≠ "")
      let chunkTexts := if chunkTexts = [] then ["(sin coincidencias relevantes)"] else chunkTexts
      (idx, chunkTexts) :: selectorGather o query rest

/-- The system prompt assembled by `CVSelectorTool.run` from `cv_chunks`
(three snippets per index, joined by a bar). -/
def selectorPrompt (cvChunks : List (String × List String)) : String :=
  cvChunks.foldl
    (fun acc p => acc ++ "- Índice: " ++ p.1 ++ "\n  Contenido: " ++ pyJoin " | " (p.2.take 3) ++ "\n")
    "Tienes estos índices con sus contenidos más relevantes:\n"
  ++ "\nInstrucción: Dada la consulta del usuario, responde SOLO con el NOMBRE EXACTO del índice más relevante. No incluyas texto adicional."

/-- `CVSelectorTool.run`.  Returns the selected index name (`""` = "no
selection") paired with the list of language-model calls issued, each
recorded as its (system prompt, user content) pair.  Failure to list
indexes, an empty index list, or a failing completion call all yield
`""`; a stripped answer that is not a key of `cv_chunks` is replaced by
`""` (fail closed). -/
def selectorRun (o : SelectorOracle) (query : String) :
    String × List (String × String) :=
  match o.listIndexes with
  | .error _ => ("", [])
  | .ok indexes =>
    if indexes.isEmpty then ("", [])
    else
      let cvChunks := selectorGather o query indexes
      let prompt := selectorPrompt cvChunks
      match o.llmAnswer with
      | .error _ => ("", [(prompt, query)])
      | .ok content =>
        let selected := pyStrip content
        (if selected ∈ cvChunks.map Prod.fst then selected else "", [(prompt, query)])

/-! ## `CVChatAgent` (`cv_agent.py`) -/

/-- Oracle for one `CVChatAgent.chat` turn. -/
structure AgentOracle where
  selector : SelectorOracle
  retrieverOpen : Except String Unit
  retrieverSearch : Except String (List RawHit)
  responderCreate : Except String CompletionStream

/-- `CVRetrieverTool.run`: a failure opening the index is logged and
yields `[]`; otherwise the result of `cv_agent.search_similar`. -/
def cvRetrieverRun (openResult : Except String Unit)
    (searchRemote : Except String (List RawHit)) : List SearchRecord :=
  match openResult with
  | .error _ => []
  | .ok _ => search_similar_tp3 searchRemote

/-- The context-snippet assembly in `CVChatAgent.chat`: the first five
retrieved docs, keeping only the truthy texts, each cut to its first 300
characters (`txt[:300]`). -/
def contextSnippets (contextDocs : List SearchRecord) : List String :=
  (contextDocs.take 5).filterMap
    (fun d => if d.text = "" then none else some (pyTake d.text 300))

/-- The fixed fallback returned by `CVChatAgent.chat` when the selector
returns no index. -/
def fallbackMsg : String :=
  "No encontré un CV relevante para tu consulta."

/-- The system message appended by `CVChatAgent.chat` on every turn. -/
def agentSystemMsg : String :=
  "Eres un asistente que responde preguntas basándote EXCLUSIVAMENTE en el contexto provisto. Si el contexto no contiene la respuesta, reconoce la limitación y sugiere preguntar de otra forma."

/-- The user message assembled by `CVChatAgent.chat` from the query, the
selected index and the context blob. -/
def agentUserMsg (userMessage target blob : String) : String :=
  "Consulta del usuario: " ++ userMessage ++ "\n\n" ++
  "Índice seleccionado: " ++ target ++ "\n" ++
  "Contexto (fragmentos):\n- " ++ blob ++ "\n\n" ++
  "Responde de forma concisa y útil."

/-- The context blob of `CVChatAgent.chat`: the snippets joined by the
bullet separator, or the placeholder when there are none. -/
def agentBlob (o : AgentOracle) : String :=
  let snippets := contextSnippets (cvRetrieverRun o.retrieverOpen o.retrieverSearch)
  if snippets.isEmpty then "(sin contexto relevante)" else pyJoin "\n- " snippets

/-- `CVChatAgent.chat`.  When the selector returns a falsy index (`""`),
the fixed fallback string is returned and `self.messages` is untouched.
Otherwise a fresh system message and the context-carrying user message
are appended, the responder runs on the grown history, and on its success
the response is appended as an assistant message; an exception escaping
the responder (`Except.error`) leaves the system/user pair appended but
no assistant message. -/
def cvChatAgentChat (msgs : List Message) (userMessage : String) (o : AgentOracle) :
    Except String String × List Message :=
  let target := (selectorRun o.selector userMessage).1
  if target = "" then
    (.ok fallbackMsg, msgs)
  else
    let blob := agentBlob o
    let msgs1 := msgs ++
      [{ role := "system", content := agentSystemMsg },
       { role := "user", content := agentUserMsg userMessage target blob }]
    match (llmResponderRun o.responderCreate).1 with
    | .error e => (.error e, msgs1)
    | .ok response => (.ok response, msgs1 ++ [{ role := "assistant", content := response }])

/-- The history reached by running a sequence of `CVChatAgent.chat` turns
from the initial empty `self.messages`. -/
def agentHistory (turns : List (String × AgentOracle)) : List Message :=
  turns.foldl (fun ms t => (cvChatAgentChat ms t.1 t.2).2) []

/-! ## Interactive loops (`__main__` of the three scripts) -/

/-- How a modelled interactive loop ends: with a process exit code, or
with the modelled input exhausted while the loop is still waiting for
more (`pending`). -/
inductive ExitOutcome where
  | exitCode : Nat → ExitOutcome
  | pending : ExitOutcome
deriving DecidableEq

/-- The `__main__` loop of `vector_db.py` after initialization: each
modelled input line comes with the remote outcome of its search.  A line
whose `strip()` is empty breaks the loop (the script then falls off the
`try` and exits 0); a search that raises reaches the outer
`except Exception`, which logs and calls `sys.exit(1)`.  The second
component lists the queries actually searched, in order. -/
def vectorDbLoop : List (String × Except String (List RawHit)) → ExitOutcome × List String
  | [] => (.pending, [])
  | (line, sr) :: rest =>
    let msg := pyStrip line
    if msg = "" then (.exitCode 0, [])
    else
      match search_similar_tp2 sr with
      | .error _ => (.exitCode 1, [msg])
      | .ok _ =>
        let out := vectorDbLoop rest
        (out.1, msg :: out.2)

/-- The `__main__` loop of `chat_groq.py`: the raw line (not stripped) is
compared case-insensitively against `exit`/`quit`; otherwise
`session.chat` runs, and an exception escaping it is caught by the outer
`except Exception` (which prints the error), after which `finally:
sys.exit(0)` ends the process with code 0. -/
def chatMainLoop (msgs : List Message) : List (String × ChatOracle) → ExitOutcome × List Message
  | [] => (.pending, msgs)
  | (line, o) :: rest =>
    if pyLower line = "exit" ∨ pyLower line = "quit" then (.exitCode 0, msgs)
    else
      match chatSessionChat msgs line o with
      | (.error _, msgs1) => (.exitCode 0, msgs1)
      | (.ok _, msgs1) => chatMainLoop msgs1 rest

/-- The `main` loop of `cv_agent.py`: the input is stripped, then
compared case-insensitively against `exit`/`quit`; an empty stripped
input is skipped (`continue`); otherwise `agent.chat` runs.  There is no
`except Exception`, but the `finally: sys.exit(0)` clause turns an
exception escaping a turn into a process exit with code 0. -/
def agentLoop (msgs : List Message) : List (String × AgentOracle) → ExitOutcome × List Message
  | [] => (.pending, msgs)
  | (line, o) :: rest =>
    let userInput := pyStrip line
    if pyLower userInput = "exit" ∨ pyLower userInput = "quit" then (.exitCode 0, msgs)
    else if userInput = "" then agentLoop msgs rest
    else
      match cvChatAgentChat msgs userInput o with
      | (.error _, msgs1) => (.exitCode 0, msgs1)
      | (.ok _, msgs1) => agentLoop msgs1 rest

/-! ## Turn-success predicates used to state the history invariants -/

/-- A `ChatSession.chat` turn on which nothing raises: the search and its
parsing succeed, the completion call succeeds, and the stream iterator
does not raise. -/
def sessionTurnOk (t : String × ChatOracle) : Prop :=
  (∃ docs, search_similar_tp2 t.2.searchRemote = Except.ok docs) ∧
  ∃ st, t.2.create = Except.ok st ∧ st.failAfter = none

/-- A `CVChatAgent.chat` turn that takes the full three-message path: the
selector returns a non-empty index name and the responder returns
normally. -/
def agentTurnOk (t : String × AgentOracle) : Prop :=
  (selectorRun t.2.selector t.1).1 ≠ "" ∧
  ∃ st, t.2.responderCreate = Except.ok st ∧ st.failAfter = none

/-! ## Concrete oracles used to exercise the definitions -/

/-- A selector run in which `list_indexes()` succeeds with zero indexes. -/
def selNoIndexes : SelectorOracle :=
  { listIndexes := .ok []
    openIndex := fun _ => .ok ()
    searchResult := fun _ _ => .ok []
    llmAnswer := .ok "cv-ana" }

/-- A selector run with one index whose model answer names no known
index. -/
def selUnknownAnswer : SelectorOracle :=
  { listIndexes := .ok ["cv-ana"]
    openIndex := fun _ => .ok ()
    searchResult := fun _ _ => .ok []
    llmAnswer := .ok "zzz" }

/-- A selector run with one index whose model answer names it. -/
def selOk : SelectorOracle :=
  { listIndexes := .ok ["cv-ana"]
    openIndex := fun _ => .ok ()
    searchResult := fun _ _ => .ok []
    llmAnswer := .ok "cv-ana" }

/-- A stream yielding one chunk and terminating normally. -/
def streamHola : CompletionStream :=
  { chunks := [{ deltaContent := some "hola" }], failAfter := none }

/-- An agent turn on which every remote call succeeds. -/
def agentOk : AgentOracle :=
  { selector := selOk
    retrieverOpen := .ok ()
    retrieverSearch := .ok []
    responderCreate := .ok streamHola }

/-- An agent turn on which the selector finds no index. -/
def agentSelFail : AgentOracle :=
  { selector := selNoIndexes
    retrieverOpen := .ok ()
    retrieverSearch := .ok []
    responderCreate := .ok streamHola }

/-- An agent turn on which the response stream iterator raises. -/
def agentStreamFail : AgentOracle :=
  { selector := selOk
    retrieverOpen := .ok ()
    retrieverSearch := .ok []
    responderCreate := .ok { chunks := [], failAfter := some "ConnectionError" } }

/-- A session turn on which every remote call succeeds. -/
def chatOk : ChatOracle :=
  { searchRemote := .ok [], create := .ok streamHola }

/-- A session turn on which the completion call raises. -/
def chatCreateFail : ChatOracle :=
  { searchRemote := .ok [], create := .error "RemoteUnavailable" }

/-! ## Shared lemmas -/

/-- Every key of the `cv_chunks` map built by the selector loop is one of
the listed index names. -/
theorem selectorGather_keys (o : SelectorOracle) (q : String) :
    ∀ idxs : List String, ∀ p ∈ selectorGather o q idxs, p.1 ∈ idxs := by
  intro idxs
  induction idxs with
  | nil => intro p hp; simp [selectorGather] at hp
  | cons idx rest ih =>
    intro p hp
    simp only [selectorGather] at hp
    cases h : o.openIndex idx with
    | error e =>
      rw [h] at hp
      exact List.mem_cons_of_mem _ (ih p hp)
    | ok u =>
      rw [h] at hp
      simp only [List.mem_cons] at hp
      cases hp with
      | inl he => rw [he]; exact List.mem_cons_self _ _
      | inr hm => exact List.mem_cons_of_mem _ (ih p hm)

/-- Shape of a fully successful `ChatSession.chat` turn. -/
theorem chatSessionChat_ok_shape (msgs : List Message) (u : String) (o : ChatOracle)
    (docs : List String) (st : CompletionStream)
    (h1 : search_similar_tp2 o.searchRemote = .ok docs)
    (h2 : o.create = .ok st) (h3 : st.failAfter = none) :
    chatSessionChat msgs u o =
      (.ok (concatDeltas st.chunks),
       msgs ++ [{ role := "user", content := u ++ "\n\nContexto: " ++ pyJoin " " docs },
                { role := "assistant", content := concatDeltas st.chunks }]) := by
  simp [chatSessionChat, h1, h2, h3]

/-- Shape of a full three-message `CVChatAgent.chat` turn. -/
theorem cvChatAgentChat_ok_shape (msgs : List Message) (u : String) (o : AgentOracle)
    (st : CompletionStream)
    (h1 : (selectorRun o.selector u).1 ≠ "")
    (h2 : o.responderCreate = .ok st) (h3 : st.failAfter = none) :
    cvChatAgentChat msgs u o =
      (.ok (concatDeltas st.chunks),
       msgs ++ [{ role := "system", content := agentSystemMsg },
                { role := "user",
                  content := agentUserMsg u (selectorRun o.selector u).1 (agentBlob o) },
                { role := "assistant", content := concatDeltas st.chunks }]) := by
  simp [cvChatAgentChat, h1, llmResponderRun, h2, h3]

/-- Role pattern of a run of successful `ChatSession.chat` turns, for an
arbitrary starting history. -/
theorem sessionHistory_roles_aux (turns : List (String × ChatOracle))
    (h : ∀ t ∈ turns, sessionTurnOk t) :
    ∀ ms : List Message,
      (turns.foldl (fun ms t => (chatSessionChat ms t.1 t.2).2) ms).map Message.role =
        ms.map Message.role ++ (turns.map fun _ => ["user", "assistant"]).flatten := by
  induction turns with
  | nil => intro ms; simp
  | cons t rest ih =>
    intro ms
    obtain ⟨⟨docs, hd⟩, st, hc, hf⟩ := h t (List.mem_cons_self _ _)
    have hrest : ∀ x ∈ rest, sessionTurnOk x := fun x hx => h x (List.mem_cons_of_mem _ hx)
    simp only [List.foldl_cons]
    rw [ih hrest]
    have hshape := chatSessionChat_ok_shape ms t.1 t.2 docs st hd hc hf
    rw [hshape]
    simp

/-- Role pattern of a run of full `CVChatAgent.chat` turns, for an
arbitrary starting history. -/
theorem agentHistory_roles_aux (turns : List (String × AgentOracle))
    (h : ∀ t ∈ turns, agentTurnOk t) :
    ∀ ms : List Message,
      (turns.foldl (fun ms t => (cvChatAgentChat ms t.1 t.2).2) ms).map Message.role =
        ms.map Message.role ++ (turns.map fun _ => ["system", "user", "assistant"]).flatten := by
  induction turns with
  | nil => intro ms; simp
  | cons t rest ih =>
    intro ms
    obtain ⟨hsel, st, hc, hf⟩ := h t (List.mem_cons_self _ _)
    have hrest : ∀ x ∈ rest, agentTurnOk x := fun x hx => h x (List.mem_cons_of_mem _ hx)
    simp only [List.foldl_cons]
    rw [ih hrest]
    have hshape := cvChatAgentChat_ok_shape ms t.1 t.2 st hsel hc hf
    rw [hshape]
    simp

/-! ## Claims -/

/-- **C1.** `CVSelectorTool.run` fails closed: with zero available
indexes it returns "no selection" (the empty string) immediately and
issues no language-model call; a model answer that is not a known index
name yields "no selection"; and in every run the result is either a
known index name or "no selection". -/
theorem c1_selector_fail_closed (o : SelectorOracle) (q : String) :
    (o.listIndexes = .ok [] → selectorRun o q = ("", [])) ∧
    (∀ idxs ans, o.listIndexes = .ok idxs → o.llmAnswer = .ok ans →
      pyStrip ans ∉ idxs → (selectorRun o q).1 = "") ∧
    ((selectorRun o q).1 = "" ∨
      ∃ idxs, o.listIndexes = .ok idxs ∧ (selectorRun o q).1 ∈ idxs) := by
  refine ⟨?_, ?_, ?_⟩
  · intro h
    simp [selectorRun, h]
  · intro idxs ans hl ha hn
    simp only [selectorRun, hl]
    by_cases he : idxs.isEmpty
    · simp [he]
    · simp only [he, if_false, ha]
      have hmem : pyStrip ans ∉ List.map Prod.fst (selectorGather o q idxs) := by
        intro hmem
        obtain ⟨p, hp, hpe⟩ := List.mem_map.mp hmem
        exact hn (hpe ▸ selectorGather_keys o q idxs p hp)
      simp [hmem]
  · cases hl : o.listIndexes with
    | error e => left; simp [selectorRun, hl]
    | ok idxs =>
      by_cases he : idxs.isEmpty
      · left; simp [selectorRun, hl, he]
      · cases ha : o.llmAnswer with
        | error e => left; simp [selectorRun, hl, he, ha]
        | ok ans =>
          by_cases hm : pyStrip ans ∈ (selectorGather o q idxs).map Prod.fst
          · right
            refine ⟨idxs, rfl, ?_⟩
            have hr : (selectorRun o q).1 = pyStrip ans := by
              simp [selectorRun, hl, he, ha, hm]
            rw [hr]
            obtain ⟨p, hp, hpe⟩ := List.mem_map.mp hm
            exact hpe ▸ selectorGather_keys o q idxs p hp
          · left; simp [selectorRun, hl, he, ha, hm]

/-- Witness for C1 at concrete oracles: zero indexes give "no selection"
with no model call, and an unknown model answer gives "no selection". -/
theorem c1_selector_fail_closed_witness :
    selectorRun selNoIndexes "hola" = ("", []) ∧
    (selectorRun selUnknownAnswer "hola").1 = "" := by
  constructor
  · exact (c1_selector_fail_closed selNoIndexes "hola").1 rfl
  · exact (c1_selector_fail_closed selUnknownAnswer "hola").2.1 ["cv-ana"] "zzz" rfl rfl
      (by decide)

/-- **C9.** When the selector returns "no selection" (the empty string),
`CVChatAgent.chat` returns the fixed fallback string and leaves
`self.messages` exactly as it was before the turn: no system, user or
assistant message is appended on that path. -/
theorem c9_agent_fallback (msgs : List Message) (u : String) (o : AgentOracle)
    (h : (selectorRun o.selector u).1 = "") :
    cvChatAgentChat msgs u o = (.ok fallbackMsg, msgs) := by
  simp [cvChatAgentChat, h]

/-- Witness for C9: a turn whose selector finds zero indexes. -/
theorem c9_agent_fallback_witness :
    cvChatAgentChat [] "hola" agentSelFail = (.ok fallbackMsg, []) :=
  c9_agent_fallback [] "hola" agentSelFail rfl

/-- **C7.** The conversation history is append-only: one chat turn of
either variant extends the prior history with a (possibly empty) suffix,
so every message present before the turn is still present, unchanged and
at the same position, after it; injecting context builds a new user
message rather than mutating old ones. -/
theorem c7_history_append_only (msgs : List Message) (u : String)
    (o : ChatOracle) (oA : AgentOracle) :
    (∃ tail, (chatSessionChat msgs u o).2 = msgs ++ tail) ∧
    (∃ tailA, (cvChatAgentChat msgs u oA).2 = msgs ++ tailA) := by
  constructor
  · simp only [chatSessionChat]
    split
    · exact ⟨[], by simp⟩
    · split
      · exact ⟨_, rfl⟩
      · split
        · exact ⟨_, rfl⟩
        · exact ⟨_, by rw [List.append_assoc]⟩
  · simp only [cvChatAgentChat]
    split
    · exact ⟨[], by simp⟩
    · split
      · exact ⟨_, rfl⟩
      · exact ⟨_, by rw [List.append_assoc]⟩

/-- **C2 counterexample.** The claim says every remote failure during
response generation yields the fixed apology and never raises to the
caller; but `ChatSession.chat` (`chat_groq.py`, one of the claim's
sources) has no `try/except`: a completion call that raises propagates
the exception to its caller instead of returning the apology. -/
theorem c2_responder_counterexample :
    (chatSessionChat [] "hola" chatCreateFail).1 = .error "RemoteUnavailable" ∧
    (chatSessionChat [] "hola" chatCreateFail).1 ≠ .ok apologyMsg := by
  constructor
  · rfl
  · intro h
    rw [show (chatSessionChat [] "hola" chatCreateFail).1 = Except.error "RemoteUnavailable"
      from rfl] at h
    exact Except.noConfusion h

/-- **C2 (amended).** Only the agent Responder (`LLMResponderTool.run`)
converts a remote failure into the fixed apology, and only a failure of
the completion-creation call, which it also logs; an exception raised by
the stream iterator propagates out of it, and `ChatSession.chat`
propagates every completion failure to its caller. -/
theorem c2_responder_amended :
    (∀ e, llmResponderRun (.error e) = (.ok apologyMsg, [e])) ∧
    (∀ chunks e,
      llmResponderRun (.ok { chunks := chunks, failAfter := some e }) = (.error e, [])) ∧
    (∀ msgs u e,
      (chatSessionChat msgs u { searchRemote := .ok [], create := .error e }).1 =
        .error e) :=
  ⟨fun _ => rfl, fun _ _ => rfl, fun _ _ _ => rfl⟩

/-- **C3.** For every streamed completion the Responder consumes, the
concatenation of all received fragments in arrival order (no reordering
or deduplication) equals the string finally returned, and that returned
string is appended to the conversation history exactly once, as the
single trailing assistant message of the turn — in `ChatSession.chat` as
well as in the agent pipeline (`LLMResponderTool.run` feeding
`CVChatAgent.chat`). -/
theorem c3_stream_concat_history
    (msgs msgsA : List Message) (u : String) (o : ChatOracle) (oA : AgentOracle)
    (docs : List String) (st stA : CompletionStream)
    (h1 : search_similar_tp2 o.searchRemote = .ok docs)
    (h2 : o.create = .ok st) (h3 : st.failAfter = none)
    (h4 : (selectorRun oA.selector u).1 ≠ "")
    (h5 : oA.responderCreate = .ok stA) (h6 : stA.failAfter = none) :
    (chatSessionChat msgs u o).1 = .ok (concatDeltas st.chunks) ∧
    (chatSessionChat msgs u o).2 =
      msgs ++ [{ role := "user", content := u ++ "\n\nContexto: " ++ pyJoin " " docs },
               { role := "assistant", content := concatDeltas st.chunks }] ∧
    (llmResponderRun oA.responderCreate).1 = .ok (concatDeltas stA.chunks) ∧
    (cvChatAgentChat msgsA u oA).1 = .ok (concatDeltas stA.chunks) ∧
    (cvChatAgentChat msgsA u oA).2 =
      msgsA ++ [{ role := "system", content := agentSystemMsg },
                { role := "user",
                  content := agentUserMsg u (selectorRun oA.selector u).1 (agentBlob oA) },
                { role := "assistant", content := concatDeltas stA.chunks }] := by
  have hs := chatSessionChat_ok_shape msgs u o docs st h1 h2 h3
  have ha := cvChatAgentChat_ok_shape msgsA u oA stA h4 h5 h6
  exact ⟨by rw [hs], by rw [hs], by simp [llmResponderRun, h5, h6], by rw [ha], by rw [ha]⟩

/-- Witness for C3 at a concrete one-chunk stream on both variants. -/
theorem c3_stream_concat_history_witness :
    (chatSessionChat [] "hola" chatOk).1 = .ok "hola" ∧
    (cvChatAgentChat [] "hola" agentOk).1 = .ok "hola" := by
  have h := c3_stream_concat_history [] [] "hola" chatOk agentOk [] streamHola streamHola
    rfl rfl rfl (by decide) rfl rfl
  exact ⟨h.1, h.2.2.2.1⟩

/-- A raw hit whose payload has everything except the `category` key. -/
def hitNoCategory : RawHit :=
  { idField := some "cv_chunk_1"
    scoreField := some 1
    fields := some { category := none, chunk_text := some "texto" } }

/-- **C4 counterexample.** The claim covers `vector_db.search_similar`
too, and there a hit whose payload lacks `category` does NOT yield a
normalized record with `category=""`: the direct `hit["fields"]["category"]`
access raises `KeyError` and no result list is produced. -/
theorem c4_normalization_counterexample :
    search_similar_tp2 (.ok [hitNoCategory]) = .error "KeyError: category" := rfl

/-- **C4 (amended).** In the agent variant (`cv_agent.search_similar`)
missing fields do default instead of failing: absent `_id`, `category`
or `chunk_text` become `""`, an absent `_score` becomes score `0`, and
the hit is still normalized and appended to the result list — including
a hit whose payload lacks the `category` key. -/
theorem c4_normalization_amended (hits : List RawHit) (h : RawHit) (hm : h ∈ hits) :
    normalizeHit h ∈ search_similar_tp3 (.ok hits) ∧
    (h.fields = none → (normalizeHit h).category = "" ∧ (normalizeHit h).text = "") ∧
    (∀ f, h.fields = some f → f.category = none → (normalizeHit h).category = "") ∧
    (h.idField = none → (normalizeHit h).id = "") ∧
    (h.scoreField = none → (normalizeHit h).score = 0) := by
  refine ⟨List.mem_map_of_mem _ hm, ?_, ?_, ?_, ?_⟩
  · intro hf
    simp [normalizeHit, hf]
  · intro f hf hc
    simp [normalizeHit, hf, hc]
  · intro hi
    simp [normalizeHit, hi]
  · intro hs
    simp [normalizeHit, hs, round2]

/-- A raw hit with no keys at all. -/
def hitEmpty : RawHit :=
  { idField := none, scoreField := none, fields := none }

/-- Witness for C4 (amended) at a concrete hit with every key absent. -/
theorem c4_normalization_amended_witness :
    normalizeHit hitEmpty ∈ search_similar_tp3 (.ok [hitEmpty]) ∧
    (normalizeHit hitEmpty).category = "" ∧
    (normalizeHit hitEmpty).id = "" ∧
    (normalizeHit hitEmpty).score = 0 := by
  have h := c4_normalization_amended [hitEmpty] hitEmpty (List.mem_cons_self _ _)
  exact ⟨h.1, (h.2.1 rfl).1, h.2.2.2.1 rfl, h.2.2.2.2 rfl⟩

/-- A retrieved record whose text is 301 characters long. -/
def longTextRecord : SearchRecord :=
  { id := "cv_chunk_1", score := 0, category := "cv",
    text := String.mk (List.replicate 301 'a') }

/-- **C5 counterexample.** The text injected as context into the
generation prompt IS truncated: `CVChatAgent.chat` cuts every snippet to
its first 300 characters before building the user message, so the text a
301-character hit contributes to the Responder context is not the full
record text. -/
theorem c5_truncation_counterexample :
    contextSnippets [longTextRecord] = [String.mk (List.replicate 300 'a')] ∧
    String.mk (List.replicate 300 'a') ≠ longTextRecord.text := by
  constructor
  · have hne : longTextRecord.text ≠ "" := by
      intro h
      have h2 : List.replicate 301 'a' = ([] : List Char) := congrArg String.data h
      have h3 := congrArg List.length h2
      rw [List.length_replicate, List.length_nil] at h3
      exact absurd h3 (by decide)
    unfold contextSnippets
    rw [show ([longTextRecord].take 5) = [longTextRecord] from rfl]
    rw [List.filterMap_cons, List.filterMap_nil, if_neg hne]
    show [pyTake longTextRecord.text 300] = [String.mk (List.replicate 300 'a')]
    unfold pyTake
    rw [show longTextRecord.text.data = List.replicate 301 'a' from rfl]
    rw [List.take_replicate]
    rw [show min 300 301 = 300 from rfl]
  · intro h
    have h2 : List.replicate 300 'a' = List.replicate 301 'a' := congrArg String.data h
    have h3 := congrArg List.length h2
    rw [List.length_replicate, List.length_replicate] at h3
    exact absurd h3 (by decide)

/-- **C5 (amended).** The agent-variant Retriever itself does not
truncate: its records carry the full `chunk_text` of each hit, and its
debug logging logs that same record.  The truncation happens downstream
of the Retriever: `CVChatAgent.chat` cuts each context snippet to 300
characters before injecting it into the prompt (and the TP-2
`vector_db.search_similar` returns display strings whose text part is
cut to 80 characters, used both for logging and downstream). -/
theorem c5_truncation_amended (hits : List RawHit) (docs : List SearchRecord) :
    (search_similar_tp3 (.ok hits)).map SearchRecord.text =
      hits.map
        (fun h => ((h.fields.getD { category := none, chunk_text := none }).chunk_text).getD "") ∧
    contextSnippets docs =
      (((docs.take 5).map SearchRecord.text).filter (fun t => t ≠ "")).map
        (fun t => pyTake t 300) := by
  constructor
  · simp [search_similar_tp3, normalizeHit]
  · have key : ∀ l : List SearchRecord,
        l.filterMap (fun d => if d.text = "" then none else some (pyTake d.text 300)) =
          ((l.map SearchRecord.text).filter (fun t => t ≠ "")).map (fun t => pyTake t 300) := by
      intro l
      induction l with
      | nil => rfl
      | cons d rest ih =>
        by_cases hd : d.text = ""
        · simp [List.filterMap_cons, List.filter_cons, hd, ih]
        · simp [List.filterMap_cons, List.filter_cons, hd, ih]
    exact key (docs.take 5)

/-- **C6 counterexample.** After two fully successful agent turns the
history's roles are system, user, assistant, system, user, assistant:
`CVChatAgent.chat` appends a fresh system message on EVERY turn, so a
further system message (position 3) appears after the leading one,
refuting "after at most one leading system message the roles are user,
assistant, ... with no further system messages interleaved". -/
theorem c6_roles_counterexample :
    (agentHistory [("q1", agentOk), ("q2", agentOk)]).map Message.role =
      ["system", "user", "assistant", "system", "user", "assistant"] ∧
    (((agentHistory [("q1", agentOk), ("q2", agentOk)]).map Message.role).drop 1).contains
      "system" = true := by
  constructor
  · rfl
  · rfl

/-- **C6 (amended).** In `ChatSession` histories (over turns on which
nothing raises) there is no system message at all and the roles
alternate user, assistant; in the agent every full turn appends a fresh
system message, so the reachable histories have role pattern system,
user, assistant repeated per turn — system messages recur on every turn
rather than appearing once at the front. -/
theorem c6_roles_amended (turnsS : List (String × ChatOracle))
    (turnsA : List (String × AgentOracle))
    (hS : ∀ t ∈ turnsS, sessionTurnOk t) (hA : ∀ t ∈ turnsA, agentTurnOk t) :
    (sessionHistory turnsS).map Message.role =
      (turnsS.map fun _ => ["user", "assistant"]).flatten ∧
    (agentHistory turnsA).map Message.role =
      (turnsA.map fun _ => ["system", "user", "assistant"]).flatten := by
  constructor
  · simpa using sessionHistory_roles_aux turnsS hS []
  · simpa using agentHistory_roles_aux turnsA hA []

/-- Witness for C6 (amended) on one successful turn of each variant. -/
theorem c6_roles_amended_witness :
    (sessionHistory [("hola", chatOk)]).map Message.role = ["user", "assistant"] ∧
    (agentHistory [("hola", agentOk)]).map Message.role =
      ["system", "user", "assistant"] := by
  have h := c6_roles_amended [("hola", chatOk)] [("hola", agentOk)]
    (by
      intro t ht
      simp only [List.mem_singleton] at ht
      subst ht
      exact ⟨⟨[], rfl⟩, streamHola, rfl, rfl⟩)
    (by
      intro t ht
      simp only [List.mem_singleton] at ht
      subst ht
      exact ⟨by decide, streamHola, rfl, rfl⟩)
  exact ⟨by simpa using h.1, by simpa using h.2⟩

/-- **C8 counterexample.** A steady-state error does terminate the
process: in the `vector_db.py` interactive loop a search whose remote
call raises reaches the outer `except Exception`, which exits the
process with code 1; the queued next input line is never processed, so
the loop does not continue. -/
theorem c8_termination_counterexample :
    vectorDbLoop [("hola", .error "RemoteUnavailable"), ("otra", .ok [])] =
      (.exitCode 1, ["hola"]) := rfl

/-- **C8 (amended).** Failures handled inside an agent turn degrade
gracefully and the loop continues, but an exception that escapes a chat
turn terminates the process in every variant: the `vector_db.py` loop
logs and exits with code 1, while the `chat_groq.py` and `cv_agent.py`
loops exit with code 0 through their `finally: sys.exit(0)`. -/
theorem c8_termination_amended :
    (∀ line sr rest, pyStrip line ≠ "" →
      (∃ e, search_similar_tp2 sr = Except.error e) →
      vectorDbLoop ((line, sr) :: rest) = (.exitCode 1, [pyStrip line])) ∧
    (∀ msgs line o rest,
      pyLower (pyStrip line) ≠ "exit" → pyLower (pyStrip line) ≠ "quit" →
      pyStrip line ≠ "" →
      (∃ r, (cvChatAgentChat msgs (pyStrip line) o).1 = Except.ok r) →
      agentLoop msgs ((line, o) :: rest) =
        agentLoop (cvChatAgentChat msgs (pyStrip line) o).2 rest) ∧
    (∀ msgs line o rest e,
      pyLower (pyStrip line) ≠ "exit" → pyLower (pyStrip line) ≠ "quit" →
      pyStrip line ≠ "" →
      (cvChatAgentChat msgs (pyStrip line) o).1 = Except.error e →
      agentLoop msgs ((line, o) :: rest) =
        (.exitCode 0, (cvChatAgentChat msgs (pyStrip line) o).2)) ∧
    (∀ msgs line o rest e,
      pyLower line ≠ "exit" → pyLower line ≠ "quit" →
      (chatSessionChat msgs line o).1 = Except.error e →
      chatMainLoop msgs ((line, o) :: rest) =
        (.exitCode 0, (chatSessionChat msgs line o).2)) := by
  refine ⟨?_, ?_, ?_, ?_⟩
  · intro line sr rest h1 h2
    obtain ⟨e, he⟩ := h2
    simp [vectorDbLoop, h1, he]
  · intro msgs line o rest h1 h2 h3 h4
    obtain ⟨r, hr⟩ := h4
    simp only [agentLoop]
    rw [if_neg (by simp [h1, h2]), if_neg h3]
    rcases hres : cvChatAgentChat msgs (pyStrip line) o with ⟨res, ms⟩
    rw [hres] at hr
    simp only at hr
    subst hr
    rfl
  · intro msgs line o rest e h1 h2 h3 h4
    simp only [agentLoop]
    rw [if_neg (by simp [h1, h2]), if_neg h3]
    rcases hres : cvChatAgentChat msgs (pyStrip line) o with ⟨res, ms⟩
    rw [hres] at h4
    simp only at h4
    subst h4
    rfl
  · intro msgs line o rest e h1 h2 h3
    simp only [chatMainLoop]
    rw [if_neg (by simp [h1, h2])]
    rcases hres : chatSessionChat msgs line o with ⟨res, ms⟩
    rw [hres] at h3
    simp only at h3
    subst h3
    rfl

/-- Witness for C8 (amended) at concrete failing and succeeding turns. -/
theorem c8_termination_amended_witness :
    vectorDbLoop [("hola", Except.error "boom")] = (.exitCode 1, ["hola"]) ∧
    agentLoop [] [("hola", agentSelFail)] =
      agentLoop (cvChatAgentChat [] "hola" agentSelFail).2 [] ∧
    agentLoop [] [("hola", agentStreamFail)] =
      (.exitCode 0, (cvChatAgentChat [] "hola" agentStreamFail).2) ∧
    chatMainLoop [] [("hola", chatCreateFail)] =
      (.exitCode 0, (chatSessionChat [] "hola" chatCreateFail).2) := by
  obtain ⟨p1, p2, p3, p4⟩ := c8_termination_amended
  refine ⟨?_, ?_, ?_, ?_⟩
  · exact p1 "hola" (Except.error "boom") [] (by decide) ⟨"boom", rfl⟩
  · exact p2 [] "hola" agentSelFail [] (by decide) (by decide) (by decide)
      ⟨fallbackMsg, rfl⟩
  · exact p3 [] "hola" agentStreamFail [] "ConnectionError" (by decide) (by decide)
      (by decide) rfl
  · exact p4 [] "hola" chatCreateFail [] "RemoteUnavailable" (by decide) (by decide) rfl

/-- **C10.** In the `vector_db.py` interactive loop an empty or
whitespace-only input line is the exit signal: the loop breaks (clean
exit 0); any non-blank line triggers a search and the loop continues;
there is no `exit`/`quit` token handling, so those words are searched
like any other query.  The searched queries are exactly the stripped
lines up to the first blank one. -/
theorem c10_blank_line_exit (pairs : List (String × Except String (List RawHit)))
    (h : ∀ p ∈ pairs, ∃ docs, search_similar_tp2 p.2 = Except.ok docs) :
    (vectorDbLoop pairs).2 =
      ((pairs.map (fun p => pyStrip p.1)).takeWhile (fun m => m ≠ "")) ∧
    ((∃ p ∈ pairs, pyStrip p.1 = "") → (vectorDbLoop pairs).1 = .exitCode 0) ∧
    ((∀ p ∈ pairs, pyStrip p.1 ≠ "") → (vectorDbLoop pairs).1 = .pending) := by
  induction pairs with
  | nil =>
    refine ⟨rfl, ?_, fun _ => rfl⟩
    rintro ⟨p, hp, -⟩
    simp at hp
  | cons hd rest ih =>
    obtain ⟨line, sr⟩ := hd
    obtain ⟨docs, hdocs⟩ := h (line, sr) (List.mem_cons_self _ _)
    have ihr := ih (fun x hx => h x (List.mem_cons_of_mem _ hx))
    by_cases hb : pyStrip line = ""
    · refine ⟨?_, ?_, ?_⟩
      · simp [vectorDbLoop, hb, List.takeWhile_cons]
      · intro _
        simp [vectorDbLoop, hb]
      · intro hall
        exact absurd hb (hall (line, sr) (List.mem_cons_self _ _))
    · refine ⟨?_, ?_, ?_⟩
      · simp only [vectorDbLoop, hb, if_neg hb, hdocs, List.map_cons, List.takeWhile_cons]
        simp [hb, ihr.1]
      · rintro ⟨p, hp, hpb⟩
        simp only [List.mem_cons] at hp
        rcases hp with rfl | hp
        · exact absurd hpb hb
        · simp only [vectorDbLoop, if_neg hb, hdocs]
          exact ihr.2.1 ⟨p, hp, hpb⟩
      · intro hall
        simp only [vectorDbLoop, if_neg hb, hdocs]
        exact ihr.2.2 (fun x hx => hall x (List.mem_cons_of_mem _ hx))

/-- Witness for C10: the word `exit` is searched like any query, and a
whitespace-only line ends the loop with a clean exit. -/
theorem c10_blank_line_exit_witness :
    (vectorDbLoop [("exit", Except.ok []), ("   ", Except.ok [])]).2 = ["exit"] ∧
    (vectorDbLoop [("exit", Except.ok []), ("   ", Except.ok [])]).1 = .exitCode 0 := by
  have h := c10_blank_line_exit [("exit", Except.ok []), ("   ", Except.ok [])]
    (by
      intro p hp
      simp only [List.mem_cons, List.not_mem_nil, or_false] at hp
      rcases hp with rfl | rfl
      · exact ⟨[], rfl⟩
      · exact ⟨[], rfl⟩)
  constructor
  · rw [h.1]
    rfl
  · exact h.2.1 ⟨("   ", Except.ok []), by simp, by decide⟩
